import Mathlib

/-!
Verification development for the provider-side deal-execution engine
(`chain/deals/handler_states.go`).

The Go code is shallowly embedded: every external collaborator call
(chain client, payment-channel subsystem, DAG store, sector pipeline,
signer/transport) is a field of the `Handler` structure returning
`Except String` values, mirroring Go's `(value, error)` returns.  Each
embedded function additionally produces a trace (`List Event`) recording
the external calls it performed, in order, so that properties of the
form "no redemption call is made" are statable.  Machine `uint64`
arithmetic is modelled on `Nat` with explicit reduction modulo `2 ^ 64`
exactly where Go wraps (`u64add`, `u64mul`, `u64sub`); `types.BigInt`
amounts are modelled as `Nat` (all amounts in this protocol are
non-negative).
-/

deriving instance DecidableEq for Except

namespace DealsModel

abbrev Address := Nat
abbrev Cid := Nat
abbrev Bytes := List Nat
abbrev BigInt := Nat

/-- Go zero value of `cid.Cid`, as taken by `mcid` in `Handler.complete`
when `WaitCommit` fails. -/
def zeroCid : Cid := 0

/-- The modulus of Go's `uint64` arithmetic, `2 ^ 64`. -/
def UINT64 : Nat := 18446744073709551616

/-- Wrapping `uint64` addition. -/
def u64add (a b : Nat) : Nat := (a + b) % UINT64

/-- Wrapping `uint64` multiplication. -/
def u64mul (a b : Nat) : Nat := (a * b) % UINT64

/-- Wrapping `uint64` subtraction: for `a b < 2 ^ 64` this is Go's `a - b`. -/
def u64sub (a b : Nat) : Nat := (a % UINT64 + (UINT64 - b % UINT64)) % UINT64

inductive SerializationMode
  | SerializationRaw
  | SerializationIPLD
  | SerializationUnixFs
deriving DecidableEq

inductive DealState
  | DealUnknown
  | DealAccepted
  | DealStaged
  | DealSealing
  | DealComplete
  | DealFailed
  | DealNoUpdate
deriving DecidableEq

structure PieceInclVoucherData where
  PieceSize : BigInt
  CommP : Bytes
deriving DecidableEq

/-- Payload of `voucher.Extra.Data`.  `cbor.DecodeInto` succeeding on a
well-formed `PieceInclVoucherData` encoding is modelled structurally:
`inclData` decodes, any other byte string (`rawData`) does not. -/
inductive ExtraData
  | inclData (d : PieceInclVoucherData)
  | rawData (b : Bytes)
deriving DecidableEq

structure ModVerifyParams where
  Actor : Address
  Method : Nat
  Data : ExtraData
deriving DecidableEq

structure SignedVoucher where
  TimeLock : Nat
  MinCloseHeight : Nat
  Extra : Option ModVerifyParams
  Lane : Nat
  Amount : BigInt
  Merges : List Unit
deriving DecidableEq

structure PaymentInfo where
  PayChActor : Address
  ChannelMessage : Option Cid
  Vouchers : List SignedVoucher
deriving DecidableEq

structure StorageDealProposal where
  PieceRef : Bytes
  SerializationMode : SerializationMode
  CommP : Bytes
  Size : Nat
  TotalPrice : BigInt
  Duration : Nat
  Payment : PaymentInfo
  MinerAddress : Address
deriving DecidableEq

structure MinerDeal where
  ProposalCid : Cid
  Proposal : StorageDealProposal
  Ref : Cid
  SectorID : Nat
deriving DecidableEq

structure PieceInclusionProof where
  Position : Nat
  ProofElements : Bytes
deriving DecidableEq

structure StorageDealResponse where
  State : DealState
  Message : String
  Proposal : Cid
  PieceInclusionProof : PieceInclusionProof
  CommD : Bytes
  SectorCommitMessage : Option Cid
deriving DecidableEq

inductive SealingState
  | Pending
  | Sealing
  | Failed
  | Sealed
  | Other (code : Nat)
deriving DecidableEq

structure PieceInfo where
  Key : String
  InclusionProof : Bytes
deriving DecidableEq

structure SectorSealingStatus where
  SectorID : Nat
  State : SealingState
  Pieces : List PieceInfo
  CommD : Bytes
  SealErrorMsg : String
deriving DecidableEq

/-- The `actors.InclusionProof` record serialized in `Handler.sealing`. -/
structure ActorsInclusionProof where
  Sector : Nat
  Proof : Bytes
deriving DecidableEq

/-- Result of `unixfile.NewUnixfsFile` followed by the
`n.(sectorblocks.UnixfsReader)` type assertion in `Handler.staged`:
either a single file (the assertion succeeds) or a directory-like node
(the assertion fails). -/
inductive UnixfsNode
  | file (id : Nat)
  | dir (id : Nat)
deriving DecidableEq

/-- Error values.  Errors coming back from external collaborators are
plain strings wrapped by `sysErr`; every error constructed by the code
under `src/` has its own constructor, one per `xerrors` site. -/
inductive DealErr
  | sysErr (msg : String)
  | unsupportedSerialization (m : SerializationMode)
  | waitingForPaychMsg (msg : String)
  | noPaymentVouchers
  | dealStartsTooFar (startH : Nat)
  | validatingVoucher (i : Nat) (e : DealErr)
  | minimumPrice (p : BigInt)
  | consumingVoucher (i : Nat) (msg : String)
  | extraNotSet
  | extraActorMismatch (got want : Address)
  | extraMethodMismatch (want got : Nat)
  | voucherDataDecode
  | pieceSizeMismatch (got want : Nat)
  | commPMismatch
  | minCloseTooHigh (v maxClose : Nat)
  | timeLockTooHigh (v maxClose : Nat)
  | unexpectedMerges
  | notEnoughFunds (avail need : BigInt)
  | laneMismatch (want got : Nat)
  | fileRootErr (msg : String)
  | unixfsOpenErr (msg : String)
  | unsupportedUnixfsType
  | addPieceErr (msg : String)
  | sealingFailed (sector : Nat) (msg : String)
  | sealStatusPending (sector : Nat)
  | sealStatusWait (sector : Nat)
  | unknownSealStatus (code : Nat)
  | inclusionProofNotFound (ref : String) (sector : Nat)
  | storingVoucherProof (i : Nat) (msg : String)
  | nilExtraPanic
deriving DecidableEq

/-- External calls performed by the embedded code, recorded in order. -/
inductive Event
  | chainHead
  | checkValid (ch : Address) (v : SignedVoucher)
  | voucherAdd (ch : Address) (v : SignedVoucher) (proof : Option Bytes) (minDelta : BigInt)
  | waitMsg (c : Cid)
  | send (r : StorageDealResponse)
  | fetchGraph (c : Cid)
  | dagGet (c : Cid)
  | newUnixfs (root : Nat)
  | addPiece
  | waitSeal (sector : Nat)
  | waitCommit (m : Address) (sector : Nat)
deriving DecidableEq

/-- Deal mutations returned by a phase handler (Go: `func(*MinerDeal)`
closures; the only closure in the source sets `SectorID`). -/
inductive Mutation
  | setSectorID (n : Nat)
deriving DecidableEq

structure MinerDealUpdate where
  newState : DealState
  id : Cid
  err : Option DealErr
  mutation : Option Mutation
deriving DecidableEq

/-- What becomes of a phase outcome in `Handler.handle`'s goroutine:
dropped on the select's stop branch, skipped by the
`err == nil && next == api.DealNoUpdate` early return, or delivered to
`h.updated`. -/
inductive HandleOutcome
  | skipped
  | delivered (u : MinerDealUpdate)
  | dropped
deriving DecidableEq

/-- Chain-client collaborator (the `h.full` field). -/
structure FullNode where
  PaychVoucherCheckValid : Address → SignedVoucher → Except String Unit
  PaychVoucherAdd : Address → SignedVoucher → Option Bytes → BigInt → Except String BigInt
  ChainHead : Except String Nat
  StateWaitMsg : Cid → Except String Unit

/-- The deal handler with its external collaborators.  `skewLimit`
stands for the constant `build.DealVoucherSkewLimit` (declared outside
`src/`); `dumpObjectIP` abstracts `cbor.DumpObject` on an
`actors.InclusionProof`. -/
structure Handler where
  full : FullNode
  pricePerByteBlock : BigInt
  skewLimit : Nat
  sendSignedResponse : StorageDealResponse → Except String Unit
  fetchGraph : Cid → Except String Unit
  dagGet : Cid → Except String Nat
  newUnixfsFile : Nat → Except String UnixfsNode
  addUnixfsPiece : Bytes → Nat → Nat → Except String Nat
  secstWaitSeal : Nat → Except String SectorSealingStatus
  dumpObjectIP : ActorsInclusionProof → Except String Bytes
  commtWaitCommit : Address → Nat → Except String Cid

/-- The method identifier `actors.MAMethods.PaymentVerifyInclusion`
(declared outside `src/`); only equality against it is ever used. -/
def paymentVerifyInclusion : Nat := 3

/-- The key prefix `sectorblocks.SerializationUnixfs0` (declared outside
`src/`); only its use as a key prefix matters. -/
def serializationUnixfs0 : String := "u"

/-- The goroutine body of `Handler.handle` (source lines 23-41) after
the phase callback `cb` has returned `(mut, err)`, which `res` carries
as an `Except` (every handler in the source returns a nil mutation
alongside a non-nil error).  The nondeterministic select between
`h.updated <- ...` and `<-h.stop` is resolved by `stopSelected`:
`true` means the stop branch was taken (shutdown raced and won), `false`
means the update was received by the owner. -/
def handleStep (deal : MinerDeal) (res : Except DealErr (Option Mutation))
    (next : DealState) (stopSelected : Bool) : HandleOutcome :=
  let err : Option DealErr := match res with | .ok _ => none | .error e => some e
  let mutv : Option Mutation := match res with | .ok m => m | .error _ => none
  if err = none ∧ next = DealState.DealNoUpdate then
    HandleOutcome.skipped
  else if stopSelected then
    HandleOutcome.dropped
  else
    HandleOutcome.delivered { newState := next, id := deal.ProposalCid, err := err, mutation := mutv }

/-- Structural model of `cbor.DecodeInto(voucher.Extra.Data, &inclChallenge)`. -/
def decodeVoucherData : ExtraData → Option PieceInclVoucherData
  | .inclData d => some d
  | .rawData _ => none

/-- The pure checks of `Handler.checkVoucher` after the initial
`PaychVoucherCheckValid` call, in source order. -/
def checkVoucherChecks (deal : MinerDeal) (voucher : SignedVoucher)
    (lane maxClose : Nat) (amount : BigInt) : Except DealErr Unit :=
  match voucher.Extra with
  | none => .error .extraNotSet
  | some extra =>
    if extra.Actor ≠ deal.Proposal.MinerAddress then
      .error (.extraActorMismatch extra.Actor deal.Proposal.MinerAddress)
    else if extra.Method ≠ paymentVerifyInclusion then
      .error (.extraMethodMismatch paymentVerifyInclusion extra.Method)
    else
      match decodeVoucherData extra.Data with
      | none => .error .voucherDataDecode
      | some inclChallenge =>
        if inclChallenge.PieceSize % UINT64 ≠ deal.Proposal.Size then
          .error (.pieceSizeMismatch (inclChallenge.PieceSize % UINT64) deal.Proposal.Size)
        else if inclChallenge.CommP ≠ deal.Proposal.CommP then
          .error .commPMismatch
        else if voucher.MinCloseHeight > maxClose then
          .error (.minCloseTooHigh voucher.MinCloseHeight maxClose)
        else if voucher.TimeLock > maxClose then
          .error (.timeLockTooHigh voucher.TimeLock maxClose)
        else if voucher.Merges.length > 0 then
          .error .unexpectedMerges
        else if voucher.Amount < amount then
          .error (.notEnoughFunds voucher.Amount amount)
        else if voucher.Lane ≠ lane then
          .error (.laneMismatch lane voucher.Lane)
        else .ok ()

/-- `Handler.checkVoucher`: one `PaychVoucherCheckValid` call, then the
pure checks. -/
def checkVoucher (h : Handler) (deal : MinerDeal) (voucher : SignedVoucher)
    (lane maxClose : Nat) (amount : BigInt) : Except DealErr Unit × List Event :=
  (match h.full.PaychVoucherCheckValid deal.Proposal.Payment.PayChActor voucher with
   | .error msg => .error (.sysErr msg)
   | .ok _ => checkVoucherChecks deal voucher lane maxClose amount,
   [Event.checkValid deal.Proposal.Payment.PayChActor voucher])

/-- Modelled from the spec: the schedule builder `VoucherSpec` is called
by `consumeVouchers` but defined outside `src/`.  Per spec sections 3
and 4.2, entry `i` is the cumulative amount that must have been redeemed
by voucher index `i`, obtained by linear time-division of the total
price across the deal duration with `increment = duration / nVouchers`;
the voucher count is passed explicitly so the schedule has one entry per
voucher, and `startH` mirrors the call site's argument (it does not
affect the amounts). -/
def VoucherSpec (duration : Nat) (totalPrice : BigInt) (startH : Nat)
    (nVouchers : Nat) : List BigInt :=
  (List.range nVouchers).map
    (fun i => totalPrice * ((duration / nVouchers) * (i + 1)) / duration)

/-- The per-voucher validation loop of `Handler.consumeVouchers`
(source lines 119-125). -/
def checkVouchersLoop (h : Handler) (deal : MinerDeal)
    (cur increment lane : Nat) (vspec : List BigInt) :
    List SignedVoucher → Nat → Except DealErr Unit × List Event
  | [], _ => (.ok (), [])
  | voucher :: rest, i =>
    let maxClose := u64add (u64add cur (u64mul increment (i + 1))) h.skewLimit
    let c := checkVoucher h deal voucher lane maxClose (vspec.getD i 0)
    match c.1 with
    | .error e => (.error (.validatingVoucher i e), c.2)
    | .ok _ =>
      let next := checkVouchersLoop h deal cur increment lane vspec rest (i + 1)
      (next.1, c.2 ++ next.2)

/-- The redemption loop of `Handler.consumeVouchers`
(source lines 132-140). -/
def redeemVouchersLoop (h : Handler) (deal : MinerDeal) (vspec : List BigInt) :
    List SignedVoucher → Nat → BigInt → Except DealErr Unit × List Event
  | [], _, _ => (.ok (), [])
  | voucher :: rest, i, prevAmt =>
    let ev := Event.voucherAdd deal.Proposal.Payment.PayChActor voucher none (vspec.getD i 0 - prevAmt)
    match h.full.PaychVoucherAdd deal.Proposal.Payment.PayChActor voucher none (vspec.getD i 0 - prevAmt) with
    | .error msg => (.error (.consumingVoucher i msg), [ev])
    | .ok delta =>
      let next := redeemVouchersLoop h deal vspec rest (i + 1) (prevAmt + delta)
      (next.1, ev :: next.2)

/-- `Handler.consumeVouchers`. -/
def consumeVouchers (h : Handler) (deal : MinerDeal) : Except DealErr Unit × List Event :=
  match h.full.ChainHead with
  | .error msg => (.error (.sysErr msg), [Event.chainHead])
  | .ok cur =>
    match deal.Proposal.Payment.Vouchers with
    | [] => (.error .noPaymentVouchers, [Event.chainHead])
    | v0 :: _ =>
      let increment := deal.Proposal.Duration / deal.Proposal.Payment.Vouchers.length
      let startH := u64sub v0.TimeLock increment
      if startH > u64add cur h.skewLimit then
        (.error (.dealStartsTooFar startH), [Event.chainHead])
      else
        let vspec := VoucherSpec deal.Proposal.Duration deal.Proposal.TotalPrice startH
          deal.Proposal.Payment.Vouchers.length
        let lane := v0.Lane
        let checked := checkVouchersLoop h deal cur increment lane vspec
          deal.Proposal.Payment.Vouchers 0
        match checked.1 with
        | .error e => (.error e, Event.chainHead :: checked.2)
        | .ok _ =>
          let minPrice := h.pricePerByteBlock * deal.Proposal.Size * deal.Proposal.Duration
          if minPrice > deal.Proposal.TotalPrice then
            (.error (.minimumPrice minPrice), Event.chainHead :: checked.2)
          else
            let redeemed := redeemVouchersLoop h deal vspec deal.Proposal.Payment.Vouchers 0 0
            (redeemed.1, Event.chainHead :: (checked.2 ++ redeemed.2))

/-- The signed response emitted by `Handler.accept`; fields not set in
the Go struct literal carry their zero values. -/
def acceptResponse (deal : MinerDeal) : StorageDealResponse :=
  { State := .DealAccepted, Message := "", Proposal := deal.ProposalCid,
    PieceInclusionProof := { Position := 0, ProofElements := [] },
    CommD := [], SectorCommitMessage := none }

/-- `Handler.accept`.  Note that here (unlike the other phases) a
`sendSignedResponse` failure is returned as the phase error. -/
def accept (h : Handler) (deal : MinerDeal) :
    Except DealErr (Option Mutation) × List Event :=
  match deal.Proposal.SerializationMode with
  | .SerializationUnixFs =>
    let afterWait : Except DealErr Unit × List Event :=
      match deal.Proposal.Payment.ChannelMessage with
      | none => (.ok (), [])
      | some cmsg =>
        match h.full.StateWaitMsg cmsg with
        | .error msg => (.error (.waitingForPaychMsg msg), [Event.waitMsg cmsg])
        | .ok _ => (.ok (), [Event.waitMsg cmsg])
    match afterWait.1 with
    | .error e => (.error e, afterWait.2)
    | .ok _ =>
      let cv := consumeVouchers h deal
      match cv.1 with
      | .error e => (.error e, afterWait.2 ++ cv.2)
      | .ok _ =>
        match h.sendSignedResponse (acceptResponse deal) with
        | .error msg =>
          (.error (.sysErr msg), afterWait.2 ++ cv.2 ++ [Event.send (acceptResponse deal)])
        | .ok _ =>
          match h.fetchGraph deal.Ref with
          | .error msg =>
            (.error (.sysErr msg),
             afterWait.2 ++ cv.2 ++ [Event.send (acceptResponse deal), Event.fetchGraph deal.Ref])
          | .ok _ =>
            (.ok none,
             afterWait.2 ++ cv.2 ++ [Event.send (acceptResponse deal), Event.fetchGraph deal.Ref])
  | m => (.error (.unsupportedSerialization m), [])

/-- The signed response emitted by `Handler.staged`. -/
def stagedResponse (deal : MinerDeal) : StorageDealResponse :=
  { State := .DealStaged, Message := "", Proposal := deal.ProposalCid,
    PieceInclusionProof := { Position := 0, ProofElements := [] },
    CommD := [], SectorCommitMessage := none }

/-- `Handler.staged`.  The initial send's failure is only logged
(`log.Warnf`), so both branches of the match continue identically. -/
def staged (h : Handler) (deal : MinerDeal) :
    Except DealErr (Option Mutation) × List Event :=
  let rest : Except DealErr (Option Mutation) × List Event :=
    match h.dagGet deal.Ref with
    | .error msg => (.error (.fileRootErr msg), [Event.dagGet deal.Ref])
    | .ok root =>
      match h.newUnixfsFile root with
      | .error msg =>
        (.error (.unixfsOpenErr msg), [Event.dagGet deal.Ref, Event.newUnixfs root])
      | .ok (.dir _) =>
        (.error .unsupportedUnixfsType, [Event.dagGet deal.Ref, Event.newUnixfs root])
      | .ok (.file f) =>
        match h.addUnixfsPiece deal.Proposal.PieceRef f deal.Proposal.Duration with
        | .error msg =>
          (.error (.addPieceErr msg),
           [Event.dagGet deal.Ref, Event.newUnixfs root, Event.addPiece])
        | .ok sectorID =>
          (.ok (some (.setSectorID sectorID)),
           [Event.dagGet deal.Ref, Event.newUnixfs root, Event.addPiece])
  match h.sendSignedResponse (stagedResponse deal) with
  | .error _ => (rest.1, Event.send (stagedResponse deal) :: rest.2)
  | .ok _ => (rest.1, Event.send (stagedResponse deal) :: rest.2)

/-- `Handler.waitSealed`.  The Go default branch formats
`status.SectorID` into the "unknown SealStatusCode" error, which the
`unknownSealStatus` payload mirrors. -/
def waitSealed (h : Handler) (deal : MinerDeal) :
    Except DealErr SectorSealingStatus × List Event :=
  (match h.secstWaitSeal deal.SectorID with
   | .error msg => .error (.sysErr msg)
   | .ok status =>
     match status.State with
     | .Sealed => .ok status
     | .Failed => .error (.sealingFailed deal.SectorID status.SealErrorMsg)
     | .Pending => .error (.sealStatusPending deal.SectorID)
     | .Sealing => .error (.sealStatusWait deal.SectorID)
     | .Other _ => .error (.unknownSealStatus status.SectorID),
   [Event.waitSeal deal.SectorID])

/-- The search loop of `getInclusionProof`, with the running index. -/
def findPieceProof (ref : String) (sector : Nat) :
    List PieceInfo → Nat → Except DealErr PieceInclusionProof
  | [], _ => .error (.inclusionProofNotFound ref sector)
  | p :: rest, i =>
    if p.Key = ref then .ok { Position := i, ProofElements := p.InclusionProof }
    else findPieceProof ref sector rest (i + 1)

/-- `getInclusionProof`. -/
def getInclusionProof (ref : String) (status : SectorSealingStatus) :
    Except DealErr PieceInclusionProof :=
  findPieceProof ref status.SectorID status.Pieces 0

/-- The proof-attachment loop of `Handler.sealing` (source lines
274-281).  `v.Extra.Method` is dereferenced without a nil check in Go;
the `none` branch models the resulting runtime nil-pointer panic as the
distinguished outcome `nilExtraPanic`. -/
def proofsLoop (h : Handler) (payCh : Address) (proofB : Bytes) :
    List SignedVoucher → Nat → Except DealErr Unit × List Event
  | [], _ => (.ok (), [])
  | v :: rest, i =>
    match v.Extra with
    | none => (.error .nilExtraPanic, [])
    | some extra =>
      if extra.Method = paymentVerifyInclusion then
        match h.full.PaychVoucherAdd payCh v (some proofB) 0 with
        | .error msg =>
          (.error (.storingVoucherProof i msg), [Event.voucherAdd payCh v (some proofB) 0])
        | .ok _ =>
          let next := proofsLoop h payCh proofB rest (i + 1)
          (next.1, Event.voucherAdd payCh v (some proofB) 0 :: next.2)
      else
        proofsLoop h payCh proofB rest (i + 1)

/-- The signed response emitted by `Handler.sealing`. -/
def sealingResponse (deal : MinerDeal) (ip : PieceInclusionProof) (commD : Bytes) :
    StorageDealResponse :=
  { State := .DealSealing, Message := "", Proposal := deal.ProposalCid,
    PieceInclusionProof := ip, CommD := commD, SectorCommitMessage := none }

/-- `Handler.sealing`.  The final send's failure is only logged. -/
def sealing (h : Handler) (deal : MinerDeal) :
    Except DealErr (Option Mutation) × List Event :=
  let ws := waitSealed h deal
  match ws.1 with
  | .error e => (.error e, ws.2)
  | .ok status =>
    match getInclusionProof (serializationUnixfs0 ++ toString deal.Ref) status with
    | .error e => (.error e, ws.2)
    | .ok ip =>
      match h.dumpObjectIP { Sector := deal.SectorID, Proof := ip.ProofElements } with
      | .error msg => (.error (.sysErr msg), ws.2)
      | .ok proofB =>
        let pl := proofsLoop h deal.Proposal.Payment.PayChActor proofB
          deal.Proposal.Payment.Vouchers 0
        match pl.1 with
        | .error e => (.error e, ws.2 ++ pl.2)
        | .ok _ =>
          match h.sendSignedResponse (sealingResponse deal ip status.CommD) with
          | .error _ =>
            (.ok none, ws.2 ++ pl.2 ++ [Event.send (sealingResponse deal ip status.CommD)])
          | .ok _ =>
            (.ok none, ws.2 ++ pl.2 ++ [Event.send (sealingResponse deal ip status.CommD)])

/-- The signed response emitted by `Handler.complete`.  Go passes
`&mcid`, a non-nil pointer whose pointee is the zero `cid.Cid` when the
commit wait failed. -/
def completeResponse (deal : MinerDeal) (mcid : Cid) : StorageDealResponse :=
  { State := .DealComplete, Message := "", Proposal := deal.ProposalCid,
    PieceInclusionProof := { Position := 0, ProofElements := [] },
    CommD := [], SectorCommitMessage := some mcid }

/-- `Handler.complete`.  A `WaitCommit` failure is only logged, leaving
`mcid` at its zero value; a send failure is only logged as well. -/
def complete (h : Handler) (deal : MinerDeal) :
    Except DealErr (Option Mutation) × List Event :=
  let mcid : Cid :=
    match h.commtWaitCommit deal.Proposal.MinerAddress deal.SectorID with
    | .error _ => zeroCid
    | .ok c => c
  match h.sendSignedResponse (completeResponse deal mcid) with
  | .error _ =>
    (.ok none,
     [Event.waitCommit deal.Proposal.MinerAddress deal.SectorID,
      Event.send (completeResponse deal mcid)])
  | .ok _ =>
    (.ok none,
     [Event.waitCommit deal.Proposal.MinerAddress deal.SectorID,
      Event.send (completeResponse deal mcid)])

/-- True exactly on `Except.error`. -/
def isErrE {α : Type} : Except DealErr α → Bool
  | .error _ => true
  | .ok _ => false

/-- True exactly on `voucherAdd` events (a `PaychVoucherAdd`
redemption call). -/
def Event.isVoucherAdd : Event → Bool
  | .voucherAdd _ _ _ _ => true
  | _ => false

/-- True exactly when the result is the "deal starts too far into the
future" rejection. -/
def isTooFarE {α : Type} : Except DealErr α → Bool
  | .error (.dealStartsTooFar _) => true
  | _ => false

/-- True exactly when the outcome delivers a non-nil error to the
owner's update channel. -/
def HandleOutcome.deliversError : HandleOutcome → Bool
  | .delivered u => u.err.isSome
  | _ => false

/-- True exactly when the result is the minimum-price refusal. -/
def isMinPriceE {α : Type} : Except DealErr α → Bool
  | .error (.minimumPrice _) => true
  | _ => false

/-- Collaborators that always succeed, for concrete runs. -/
def fnOk : FullNode :=
  { PaychVoucherCheckValid := fun _ _ => .ok ()
    PaychVoucherAdd := fun _ _ _ _ => .ok 100
    ChainHead := .ok 1000
    StateWaitMsg := fun _ => .ok () }

/-- A handler whose collaborators all succeed, for concrete runs. -/
def hBase : Handler :=
  { full := fnOk
    pricePerByteBlock := 0
    skewLimit := 10
    sendSignedResponse := fun _ => .ok ()
    fetchGraph := fun _ => .ok ()
    dagGet := fun _ => .ok 1
    newUnixfsFile := fun n => .ok (.file n)
    addUnixfsPiece := fun _ _ _ => .ok 7
    secstWaitSeal := fun sid =>
      .ok { SectorID := sid, State := .Sealed, Pieces := [], CommD := [3], SealErrorMsg := "" }
    dumpObjectIP := fun _ => .ok [9]
    commtWaitCommit := fun _ _ => .ok 42 }

/-- A voucher that passes every check of `checkVoucher` against
`dealGood` at chain height 1000. -/
def vGood : SignedVoucher :=
  { TimeLock := 1050, MinCloseHeight := 1100,
    Extra := some { Actor := 7, Method := paymentVerifyInclusion,
                    Data := .inclData { PieceSize := 10, CommP := [1, 2] } },
    Lane := 0, Amount := 100, Merges := [] }

/-- A deal whose single voucher passes `consumeVouchers` under `hBase`. -/
def dealGood : MinerDeal :=
  { ProposalCid := 11
    Proposal :=
      { PieceRef := [0], SerializationMode := .SerializationUnixFs, CommP := [1, 2],
        Size := 10, TotalPrice := 100, Duration := 100,
        Payment := { PayChActor := 9, ChannelMessage := none, Vouchers := [vGood] },
        MinerAddress := 7 }
    Ref := 5
    SectorID := 3 }

/-- `hBase` with a failing signer/transport. -/
def hSendFail : Handler :=
  { hBase with sendSignedResponse := fun _ => .error "sendfail" }

/-- A handler whose voucher chain-validity check fails, over an
underpriced price floor (`pricePerByteBlock = 1`). -/
def hC3 : Handler :=
  { hBase with
    full := { fnOk with PaychVoucherCheckValid := fun _ _ => .error "cv" }
    pricePerByteBlock := 1 }

/-- `dealGood` with total price 10, strictly below the floor
`1 * 10 * 100` enforced by `hC3`. -/
def dealC3 : MinerDeal :=
  { dealGood with Proposal := { dealGood.Proposal with TotalPrice := 10 } }

/-- A sealed-sector status whose piece list lacks `dealGood`'s key. -/
def statusC5 : SectorSealingStatus :=
  { SectorID := 3, State := .Sealed,
    Pieces := [{ Key := "zz", InclusionProof := [4] }],
    CommD := [3], SealErrorMsg := "" }

/-- `hBase` delivering `statusC5` from the sector pipeline. -/
def hC5 : Handler :=
  { hBase with secstWaitSeal := fun _ => .ok statusC5 }

/-- `hBase` whose commit-message wait times out. -/
def hC6 : Handler :=
  { hBase with commtWaitCommit := fun _ _ => .error "timeout" }

/-- `dealGood` with an empty voucher list. -/
def dealNoVouchers : MinerDeal :=
  { dealGood with
    Proposal :=
      { dealGood.Proposal with
        Payment := { dealGood.Proposal.Payment with Vouchers := [] } } }

/-- Chain height 10, no skew tolerance, failing voucher validity check:
the environment for the C10 counterexample. -/
def hC10 : Handler :=
  { hBase with
    full := { fnOk with ChainHead := .ok 10, PaychVoucherCheckValid := fun _ _ => .error "cv" }
    skewLimit := 0 }

/-- A deal of duration `2 ^ 64 - 1` whose single voucher has time-lock 0:
its `startH` wraps all the way down to 1. -/
def dealC10 : MinerDeal :=
  { dealGood with
    Proposal :=
      { dealGood.Proposal with
        Duration := UINT64 - 1
        Payment := { dealGood.Proposal.Payment with
                     Vouchers := [{ vGood with TimeLock := 0 }] } } }

/-- Chain height 100 for the amended C10 run. -/
def hC10b : Handler :=
  { hBase with full := { fnOk with ChainHead := .ok 100 } }

/-- A voucher with time-lock 500, below the increment 1000 of
`dealC10b`. -/
def v500 : SignedVoucher := { vGood with TimeLock := 500 }

/-- A deal of duration 1000 whose single voucher is `v500`. -/
def dealC10b : MinerDeal :=
  { dealGood with
    Proposal :=
      { dealGood.Proposal with
        Duration := 1000
        Payment := { dealGood.Proposal.Payment with Vouchers := [v500] } } }

/-- Wrapping addition never exceeds the mathematical sum. -/
theorem u64add_le (a b : Nat) : u64add a b ≤ a + b := by
  unfold u64add; exact Nat.mod_le _ _

/-- Wrapping multiplication never exceeds the mathematical product. -/
theorem u64mul_le (a b : Nat) : u64mul a b ≤ a * b := by
  unfold u64mul; exact Nat.mod_le _ _

/-- C1 (amended): when the callback reports a non-nil error, the handle
step never skips the outcome; it delivers the error exactly once when
the stop branch is not selected, and otherwise the outcome — error
included — is discarded (so delivery happens at most once, but a
concurrent shutdown may drop the error). -/
theorem claim_C1_amended (deal : MinerDeal) (e : DealErr) (next : DealState)
    (stopSelected : Bool) :
    handleStep deal (.error e) next false =
      HandleOutcome.delivered
        { newState := next, id := deal.ProposalCid, err := some e, mutation := none }
    ∧ (handleStep deal (.error e) next stopSelected = HandleOutcome.dropped
       ∨ handleStep deal (.error e) next stopSelected =
           HandleOutcome.delivered
             { newState := next, id := deal.ProposalCid, err := some e, mutation := none }) := by
  constructor
  · simp [handleStep]
  · cases stopSelected
    · right; simp [handleStep]
    · left; simp [handleStep]

/-- C1 counterexample: a phase outcome carrying a non-nil error is NOT
delivered when the shutdown signal wins the select — the outcome is
dropped and the terminal error is lost, refuting delivery "exactly once
even when the shared shutdown signal fires concurrently". -/
theorem claim_C1_counterexample :
    handleStep dealGood (.error (.sysErr "boom")) DealState.DealFailed true =
      HandleOutcome.dropped
    ∧ (handleStep dealGood (.error (.sysErr "boom")) DealState.DealFailed true).deliversError
        = false := by
  decide

/-- C4 helper: the pure checks reject whenever `MinCloseHeight` or
`TimeLock` exceeds the supplied bound, regardless of the other fields. -/
theorem checkVoucherChecks_bound_err (deal : MinerDeal) (voucher : SignedVoucher)
    (lane maxClose : Nat) (amount : BigInt)
    (hb : voucher.MinCloseHeight > maxClose ∨ voucher.TimeLock > maxClose) :
    isErrE (checkVoucherChecks deal voucher lane maxClose amount) = true := by
  unfold checkVoucherChecks
  cases voucher.Extra with
  | none => rfl
  | some extra =>
    dsimp only
    repeat' split
    all_goals first | rfl | omega

/-- C4 helper: `checkVoucher` rejects whenever `MinCloseHeight` or
`TimeLock` exceeds the supplied bound. -/
theorem checkVoucher_bound_err (h : Handler) (deal : MinerDeal) (voucher : SignedVoucher)
    (lane maxClose : Nat) (amount : BigInt)
    (hb : voucher.MinCloseHeight > maxClose ∨ voucher.TimeLock > maxClose) :
    isErrE (checkVoucher h deal voucher lane maxClose amount).1 = true := by
  unfold checkVoucher
  cases h.full.PaychVoucherCheckValid deal.Proposal.Payment.PayChActor voucher with
  | error msg => rfl
  | ok u => exact checkVoucherChecks_bound_err deal voucher lane maxClose amount hb

/-- C4: with `increment = duration / voucherCount`, a voucher whose
`MinCloseHeight` or `TimeLock` exceeds
`currentHeight + increment * (i + 1) + skewLimit` is rejected by
`checkVoucher` at the `maxClose` bound `consumeVouchers` passes for
index `i` (the wrapping `uint64` computation of that bound), even if
the voucher is otherwise well-formed. -/
theorem claim_C4 (h : Handler) (deal : MinerDeal) (voucher : SignedVoucher)
    (lane cur i : Nat) (amount : BigInt)
    (hb : voucher.MinCloseHeight >
            cur + (deal.Proposal.Duration / deal.Proposal.Payment.Vouchers.length) * (i + 1)
              + h.skewLimit
        ∨ voucher.TimeLock >
            cur + (deal.Proposal.Duration / deal.Proposal.Payment.Vouchers.length) * (i + 1)
              + h.skewLimit) :
    isErrE (checkVoucher h deal voucher lane
      (u64add
        (u64add cur
          (u64mul (deal.Proposal.Duration / deal.Proposal.Payment.Vouchers.length) (i + 1)))
        h.skewLimit) amount).1 = true := by
  apply checkVoucher_bound_err
  have h1 := u64mul_le (deal.Proposal.Duration / deal.Proposal.Payment.Vouchers.length) (i + 1)
  have h2 := u64add_le cur
    (u64mul (deal.Proposal.Duration / deal.Proposal.Payment.Vouchers.length) (i + 1))
  have h3 := u64add_le
    (u64add cur (u64mul (deal.Proposal.Duration / deal.Proposal.Payment.Vouchers.length) (i + 1)))
    h.skewLimit
  omega

/-- C4 witness: a voucher with `MinCloseHeight = 2000` against bound
`1000 + 100 * 1 + 10` is rejected. -/
theorem claim_C4_witness :
    isErrE (checkVoucher hBase dealGood { vGood with MinCloseHeight := 2000 } 0
      (u64add
        (u64add 1000
          (u64mul (dealGood.Proposal.Duration / dealGood.Proposal.Payment.Vouchers.length) 1))
        hBase.skewLimit) 100).1 = true :=
  claim_C4 hBase dealGood { vGood with MinCloseHeight := 2000 } 0 1000 0 100
    (Or.inl (by decide))

/-- C6: if the chain client's wait for the sector commitment message
fails, the Complete phase still emits a signed complete response whose
commit-message reference is the zero cid, and returns no error and no
mutation. -/
theorem claim_C6 (h : Handler) (deal : MinerDeal) (msg : String)
    (hw : h.commtWaitCommit deal.Proposal.MinerAddress deal.SectorID = .error msg) :
    (complete h deal).1 = .ok none
    ∧ Event.send (completeResponse deal zeroCid) ∈ (complete h deal).2
    ∧ (completeResponse deal zeroCid).SectorCommitMessage = some zeroCid := by
  refine ⟨?_, ?_, rfl⟩ <;>
    (simp only [complete, hw]
     cases hs : h.sendSignedResponse (completeResponse deal zeroCid) <;> simp [hs])

/-- C6 witness: with a "timeout" from the commit wait, the Complete
phase returns no error and emits the zero-reference response. -/
theorem claim_C6_witness :
    (complete hC6 dealGood).1 = .ok none
    ∧ Event.send (completeResponse dealGood zeroCid) ∈ (complete hC6 dealGood).2 :=
  ⟨(claim_C6 hC6 dealGood "timeout" rfl).1, (claim_C6 hC6 dealGood "timeout" rfl).2.1⟩

/-- C7 helper: the schedule entry at index `i < n`. -/
theorem VoucherSpec_getD (duration : Nat) (price : BigInt) (startH n i : Nat)
    (hi : i < n) :
    (VoucherSpec duration price startH n).getD i 0 =
      price * ((duration / n) * (i + 1)) / duration := by
  unfold VoucherSpec
  rw [List.getD_eq_getElem?_getD, List.getElem?_map, List.getElem?_range hi]
  rfl

/-- C7: for `n` vouchers with `n` evenly dividing a positive duration,
the computed per-index cumulative amounts are monotonically
non-decreasing and the final index's amount equals the total price. -/
theorem claim_C7 (duration n : Nat) (price : BigInt) (startH : Nat)
    (hn : 0 < n) (hd : 0 < duration) (hdvd : n ∣ duration) :
    (∀ i, i + 1 < n →
      (VoucherSpec duration price startH n).getD i 0 ≤
        (VoucherSpec duration price startH n).getD (i + 1) 0)
    ∧ (VoucherSpec duration price startH n).getD (n - 1) 0 = price := by
  constructor
  · intro i hi
    rw [VoucherSpec_getD duration price startH n i (by omega),
        VoucherSpec_getD duration price startH n (i + 1) hi]
    apply Nat.div_le_div_right
    apply Nat.mul_le_mul_left
    apply Nat.mul_le_mul_left
    omega
  · rw [VoucherSpec_getD duration price startH n (n - 1) (by omega)]
    have hsub : n - 1 + 1 = n := by omega
    rw [hsub, Nat.div_mul_cancel hdvd, Nat.mul_div_cancel _ hd]

/-- C7 witness: two vouchers over duration 10 and price 7 yield final
cumulative amount 7. -/
theorem claim_C7_witness : (VoucherSpec 10 7 0 2).getD 1 0 = 7 :=
  (claim_C7 10 2 7 0 (by omega) (by omega) ⟨5, rfl⟩).2

/-- C8: with a successful chain-head query, a deal with an empty voucher
list makes `consumeVouchers` return the "no payment vouchers" error
right after the head query, before the increment division or any other
work. -/
theorem claim_C8 (h : Handler) (deal : MinerDeal) (cur : Nat)
    (hch : h.full.ChainHead = .ok cur)
    (hv : deal.Proposal.Payment.Vouchers = []) :
    (consumeVouchers h deal).1 = .error .noPaymentVouchers
    ∧ (consumeVouchers h deal).2 = [Event.chainHead] := by
  unfold consumeVouchers
  rw [hch, hv]
  exact ⟨rfl, rfl⟩

/-- C8 witness: the empty-voucher deal is refused with the dedicated
error. -/
theorem claim_C8_witness :
    (consumeVouchers hBase dealNoVouchers).1 = .error .noPaymentVouchers :=
  (claim_C8 hBase dealNoVouchers 1000 rfl rfl).1

/-- Trace of a single `checkVoucher` call: exactly one chain-validity
check. -/
theorem checkVoucher_trace (h : Handler) (deal : MinerDeal) (voucher : SignedVoucher)
    (lane maxClose : Nat) (amount : BigInt) :
    (checkVoucher h deal voucher lane maxClose amount).2 =
      [Event.checkValid deal.Proposal.Payment.PayChActor voucher] := rfl

/-- Every event recorded by the validation loop is a chain-validity
check. -/
theorem checkVouchersLoop_trace (h : Handler) (deal : MinerDeal)
    (cur increment lane : Nat) (vspec : List BigInt) :
    ∀ (vs : List SignedVoucher) (i : Nat) (ev : Event),
      ev ∈ (checkVouchersLoop h deal cur increment lane vspec vs i).2 →
      ∃ a v, ev = Event.checkValid a v := by
  intro vs
  induction vs with
  | nil =>
    intro i ev hmem
    simp [checkVouchersLoop] at hmem
  | cons voucher rest ih =>
    intro i ev hmem
    simp only [checkVouchersLoop] at hmem
    cases hres : (checkVoucher h deal voucher lane
        (u64add (u64add cur (u64mul increment (i + 1))) h.skewLimit) (vspec.getD i 0)).1 with
    | error e =>
      rw [hres] at hmem
      simp only [checkVoucher_trace, List.mem_singleton] at hmem
      exact ⟨_, _, hmem⟩
    | ok u =>
      rw [hres] at hmem
      simp only [checkVoucher_trace, List.mem_append, List.mem_singleton] at hmem
      rcases hmem with hL | hR
      · exact ⟨_, _, hL⟩
      · exact ih (i + 1) ev hR

/-- Every event recorded by the redemption loop is a redemption call. -/
theorem redeemVouchersLoop_trace (h : Handler) (deal : MinerDeal) (vspec : List BigInt) :
    ∀ (vs : List SignedVoucher) (i : Nat) (prevAmt : BigInt) (ev : Event),
      ev ∈ (redeemVouchersLoop h deal vspec vs i prevAmt).2 →
      ∃ a v p m, ev = Event.voucherAdd a v p m := by
  intro vs
  induction vs with
  | nil =>
    intro i prevAmt ev hmem
    simp [redeemVouchersLoop] at hmem
  | cons voucher rest ih =>
    intro i prevAmt ev hmem
    simp only [redeemVouchersLoop] at hmem
    cases hres : h.full.PaychVoucherAdd deal.Proposal.Payment.PayChActor voucher none
        (vspec.getD i 0 - prevAmt) with
    | error msg =>
      rw [hres] at hmem
      simp only [List.mem_singleton] at hmem
      exact ⟨_, _, _, _, hmem⟩
    | ok delta =>
      rw [hres] at hmem
      simp only [List.mem_cons] at hmem
      rcases hmem with hL | hR
      · exact ⟨_, _, _, _, hL⟩
      · exact ih (i + 1) (prevAmt + delta) ev hR

/-- C3 counterexample: an underpriced deal (total price 10 below the
floor 1000) still has its voucher examined first — the chain-validity
call is recorded and the resulting error is the per-voucher validation
failure, not the minimum-price refusal — refuting "no per-voucher
validation happens for such a deal". -/
theorem claim_C3_counterexample :
    hC3.pricePerByteBlock * dealC3.Proposal.Size * dealC3.Proposal.Duration >
        dealC3.Proposal.TotalPrice
    ∧ Event.checkValid 9 vGood ∈ (consumeVouchers hC3 dealC3).2
    ∧ isMinPriceE (consumeVouchers hC3 dealC3).1 = false
    ∧ (consumeVouchers hC3 dealC3).1 = .error (.validatingVoucher 0 (.sysErr "cv")) := by
  decide

/-- C3 (amended): for an underpriced deal (total price strictly below
`pricePerByteBlock * size * duration`), `consumeVouchers` always fails
and never performs a redemption call — but the minimum-price check runs
only after the per-voucher validation loop, so vouchers may well be
examined (and a voucher failure reported instead) before the price
floor is consulted. -/
theorem claim_C3_amended (h : Handler) (deal : MinerDeal)
    (hp : h.pricePerByteBlock * deal.Proposal.Size * deal.Proposal.Duration >
            deal.Proposal.TotalPrice) :
    isErrE (consumeVouchers h deal).1 = true
    ∧ ∀ ev ∈ (consumeVouchers h deal).2, ev.isVoucherAdd = false := by
  unfold consumeVouchers
  cases hch : h.full.ChainHead with
  | error msg =>
    refine ⟨rfl, ?_⟩
    intro ev hmem
    simp only [List.mem_singleton] at hmem
    subst hmem
    rfl
  | ok cur =>
    cases hvs : deal.Proposal.Payment.Vouchers with
    | nil =>
      refine ⟨rfl, ?_⟩
      intro ev hmem
      simp only [List.mem_singleton] at hmem
      subst hmem
      rfl
    | cons v0 vrest =>
      dsimp only
      split
      · refine ⟨rfl, ?_⟩
        intro ev hmem
        simp only [List.mem_singleton] at hmem
        subst hmem
        rfl
      · split <;>
          (refine ⟨rfl, ?_⟩
           intro ev hmem
           simp only [List.mem_cons] at hmem
           rcases hmem with hL | hR
           · subst hL; rfl
           · obtain ⟨a, v, rfl⟩ := checkVouchersLoop_trace h deal _ _ _ _ _ _ ev hR
             rfl)

/-- C3 witness: the underpriced fixture fails `consumeVouchers`. -/
theorem claim_C3_witness :
    isErrE (consumeVouchers hC3 dealC3).1 = true :=
  (claim_C3_amended hC3 dealC3 (by decide)).1

/-- C5 helper: the piece search fails when no key matches. -/
theorem findPieceProof_notFound (ref : String) (sector : Nat) :
    ∀ (ps : List PieceInfo) (i : Nat), (∀ p ∈ ps, p.Key ≠ ref) →
      findPieceProof ref sector ps i = .error (.inclusionProofNotFound ref sector) := by
  intro ps
  induction ps with
  | nil => intro i _; rfl
  | cons p rest ih =>
    intro i hmiss
    unfold findPieceProof
    rw [if_neg (hmiss p (by simp))]
    exact ih (i + 1) (fun q hq => hmiss q (by simp [hq]))

/-- C5: when the sealed status's piece list has no entry keyed by the
deal's piece key, the Sealing phase fails with the inclusion-proof
"not found" error and performs no voucher redemption (no
`PaychVoucherAdd` call appears in the trace). -/
theorem claim_C5 (h : Handler) (deal : MinerDeal) (status : SectorSealingStatus)
    (hws : h.secstWaitSeal deal.SectorID = .ok status)
    (hst : status.State = SealingState.Sealed)
    (hmiss : ∀ p ∈ status.Pieces, p.Key ≠ serializationUnixfs0 ++ toString deal.Ref) :
    (sealing h deal).1 =
      .error (.inclusionProofNotFound (serializationUnixfs0 ++ toString deal.Ref)
        status.SectorID)
    ∧ ∀ ev ∈ (sealing h deal).2, ev.isVoucherAdd = false := by
  have hfind := findPieceProof_notFound (serializationUnixfs0 ++ toString deal.Ref)
    status.SectorID status.Pieces 0 hmiss
  unfold sealing waitSealed getInclusionProof
  rw [hws]
  dsimp only
  rw [hst]
  dsimp only
  rw [hfind]
  refine ⟨rfl, ?_⟩
  intro ev hmem
  simp only [List.mem_singleton] at hmem
  subst hmem
  rfl

/-- C5 witness: the fixture whose sealed sector lacks the deal's piece
key fails with the "not found" error. -/
theorem claim_C5_witness :
    (sealing hC5 dealGood).1 =
      .error (.inclusionProofNotFound (serializationUnixfs0 ++ toString dealGood.Ref)
        statusC5.SectorID) :=
  (claim_C5 hC5 dealGood statusC5 rfl rfl (by decide)).1

/-- C9 helper: `waitSealed` never produces the nil-deref marker. -/
theorem waitSealed_no_panic (h : Handler) (deal : MinerDeal) :
    (waitSealed h deal).1 ≠ .error .nilExtraPanic := by
  unfold waitSealed
  cases h.secstWaitSeal deal.SectorID with
  | error msg => simp
  | ok status => cases hst : status.State <;> simp [hst]

/-- C9 helper: a `findPieceProof` failure is always the not-found
error. -/
theorem findPieceProof_err (ref : String) (sector : Nat) :
    ∀ (ps : List PieceInfo) (i : Nat) (e : DealErr),
      findPieceProof ref sector ps i = .error e →
      e = .inclusionProofNotFound ref sector := by
  intro ps
  induction ps with
  | nil =>
    intro i e hEq
    unfold findPieceProof at hEq
    injection hEq with h1
    exact h1.symm
  | cons p rest ih =>
    intro i e hEq
    unfold findPieceProof at hEq
    split at hEq
    · simp at hEq
    · exact ih (i + 1) e hEq

/-- C9 helper: with every voucher's Extra present, the proof-attachment
loop never reaches the nil-dereference branch. -/
theorem proofsLoop_no_panic (h : Handler) (payCh : Address) (proofB : Bytes) :
    ∀ (vs : List SignedVoucher) (i : Nat), (∀ v ∈ vs, v.Extra.isSome = true) →
      (proofsLoop h payCh proofB vs i).1 ≠ .error .nilExtraPanic := by
  intro vs
  induction vs with
  | nil => intro i _; simp [proofsLoop]
  | cons v rest ih =>
    intro i hex
    have hv : v.Extra.isSome = true := hex v (by simp)
    unfold proofsLoop
    cases hext : v.Extra with
    | none => rw [hext] at hv; simp at hv
    | some extra =>
      dsimp only
      split
      · cases h.full.PaychVoucherAdd payCh v (some proofB) 0 with
        | error msg => simp
        | ok delta =>
          dsimp only
          exact ih (i + 1) (fun w hw => hex w (by simp [hw]))
      · exact ih (i + 1) (fun w hw => hex w (by simp [hw]))

/-- C9: under the precondition that every voucher of the deal has a
non-nil Extra (which `checkVoucher` enforces during Accept), the
unguarded `v.Extra.Method` dereference in the Sealing phase's
proof-attachment loop is unreachable: the phase never produces the
nil-dereference outcome. -/
theorem claim_C9 (h : Handler) (deal : MinerDeal)
    (hex : ∀ v ∈ deal.Proposal.Payment.Vouchers, v.Extra.isSome = true) :
    (sealing h deal).1 ≠ .error .nilExtraPanic := by
  unfold sealing
  dsimp only
  cases hws : (waitSealed h deal).1 with
  | error e =>
    dsimp only
    intro heq
    injection heq with h1
    subst h1
    exact waitSealed_no_panic h deal hws
  | ok status =>
    dsimp only
    cases hgp : getInclusionProof (serializationUnixfs0 ++ toString deal.Ref) status with
    | error e =>
      dsimp only
      intro heq
      injection heq with h1
      have hnf := findPieceProof_err (serializationUnixfs0 ++ toString deal.Ref)
        status.SectorID status.Pieces 0 e hgp
      rw [hnf] at h1
      simp at h1
    | ok ip =>
      dsimp only
      cases h.dumpObjectIP { Sector := deal.SectorID, Proof := ip.ProofElements } with
      | error m2 => simp
      | ok proofB =>
        dsimp only
        cases hpl : (proofsLoop h deal.Proposal.Payment.PayChActor proofB
            deal.Proposal.Payment.Vouchers 0).1 with
        | error e =>
          dsimp only
          intro heq
          injection heq with h1
          subst h1
          exact proofsLoop_no_panic h deal.Proposal.Payment.PayChActor proofB
            deal.Proposal.Payment.Vouchers 0 hex hpl
        | ok u =>
          dsimp only
          cases h.sendSignedResponse (sealingResponse deal ip status.CommD) <;> simp

/-- C9 witness: with every fixture voucher's Extra set, the Sealing
phase cannot produce the nil-dereference outcome. -/
theorem claim_C9_witness :
    (sealing hBase dealGood).1 ≠ .error .nilExtraPanic :=
  claim_C9 hBase dealGood (by decide)

/-- Every event recorded by `consumeVouchers` is a chain-head query, a
validity check, or a redemption call. -/
theorem consumeVouchers_trace (h : Handler) (deal : MinerDeal) :
    ∀ ev ∈ (consumeVouchers h deal).2,
      ev = Event.chainHead ∨ (∃ a v, ev = Event.checkValid a v)
      ∨ (∃ a v p m, ev = Event.voucherAdd a v p m) := by
  unfold consumeVouchers
  cases hch : h.full.ChainHead with
  | error msg =>
    intro ev hmem
    simp only [List.mem_singleton] at hmem
    exact Or.inl hmem
  | ok cur =>
    cases hvs : deal.Proposal.Payment.Vouchers with
    | nil =>
      intro ev hmem
      simp only [List.mem_singleton] at hmem
      exact Or.inl hmem
    | cons v0 vrest =>
      dsimp only
      split
      · intro ev hmem
        simp only [List.mem_singleton] at hmem
        exact Or.inl hmem
      · split
        · intro ev hmem
          simp only [List.mem_cons] at hmem
          rcases hmem with hL | hR
          · exact Or.inl hL
          · exact Or.inr (Or.inl (checkVouchersLoop_trace h deal _ _ _ _ _ _ ev hR))
        · split
          · intro ev hmem
            simp only [List.mem_cons] at hmem
            rcases hmem with hL | hR
            · exact Or.inl hL
            · exact Or.inr (Or.inl (checkVouchersLoop_trace h deal _ _ _ _ _ _ ev hR))
          · intro ev hmem
            simp only [List.mem_cons, List.mem_append] at hmem
            rcases hmem with hL | hR | hR2
            · exact Or.inl hL
            · exact Or.inr (Or.inl (checkVouchersLoop_trace h deal _ _ _ _ _ _ ev hR))
            · exact Or.inr (Or.inr (redeemVouchersLoop_trace h deal _ _ _ _ ev hR2))

/-- C2 counterexample: with every step of the Accept phase succeeding
until the signed "accepted" response fails to send, the phase returns
the send error and the data-graph fetch is never invoked — refuting
"never causes the phase handler to return an error; the Accept phase
still succeeds and proceeds to fetch the data graph". -/
theorem claim_C2_counterexample :
    (accept hSendFail dealGood).1 = .error (.sysErr "sendfail")
    ∧ Event.fetchGraph dealGood.Ref ∉ (accept hSendFail dealGood).2 := by
  decide

/-- Handlers agreeing on their chain client run the proof-attachment
loop identically. -/
theorem proofsLoop_full_congr (h1 h2 : Handler) (hfull : h1.full = h2.full)
    (payCh : Address) (proofB : Bytes) :
    ∀ (vs : List SignedVoucher) (i : Nat),
      proofsLoop h1 payCh proofB vs i = proofsLoop h2 payCh proofB vs i := by
  intro vs
  induction vs with
  | nil => intro i; rfl
  | cons v rest ih =>
    intro i
    unfold proofsLoop
    rw [hfull]
    cases v.Extra with
    | none => rfl
    | some extra =>
      dsimp only
      split
      · cases h2.full.PaychVoucherAdd payCh v (some proofB) 0 <;> simp [ih (i + 1)]
      · exact ih (i + 1)

/-- C2 (amended): a `sendSignedResponse` failure is non-fatal (logged
only) in the Staged, Sealing and Complete phases — their results do not
depend on the send outcome at all — but in the Accept phase a send
failure makes the handler return that error and the data-graph fetch
does not run. -/
theorem claim_C2_amended (h : Handler) (deal : MinerDeal)
    (s : StorageDealResponse → Except String Unit) (msg : String)
    (hmode : deal.Proposal.SerializationMode = SerializationMode.SerializationUnixFs)
    (hchm : deal.Proposal.Payment.ChannelMessage = none)
    (hcv : (consumeVouchers h deal).1 = .ok ())
    (hsend : h.sendSignedResponse (acceptResponse deal) = .error msg) :
    (accept h deal).1 = .error (.sysErr msg)
    ∧ (∀ c, Event.fetchGraph c ∉ (accept h deal).2)
    ∧ (staged { h with sendSignedResponse := s } deal).1 = (staged h deal).1
    ∧ (sealing { h with sendSignedResponse := s } deal).1 = (sealing h deal).1
    ∧ (complete { h with sendSignedResponse := s } deal).1 = (complete h deal).1 := by
  have haccept : accept h deal =
      (.error (.sysErr msg),
       ([] : List Event) ++ (consumeVouchers h deal).2 ++ [Event.send (acceptResponse deal)]) := by
    unfold accept
    rw [hmode]
    dsimp only
    rw [hchm]
    dsimp only
    rw [hcv]
    dsimp only
    rw [hsend]
  refine ⟨?_, ?_, ?_, ?_, ?_⟩
  · rw [haccept]
  · intro c hmem
    rw [haccept] at hmem
    simp only [List.nil_append, List.mem_append, List.mem_singleton] at hmem
    rcases hmem with hIn | hEq
    · rcases consumeVouchers_trace h deal _ hIn with h1 | ⟨a, v, h1⟩ | ⟨a, v, p, m, h1⟩ <;>
        simp at h1
    · simp at hEq
  · unfold staged
    dsimp only
    cases s (stagedResponse deal) <;> cases h.sendSignedResponse (stagedResponse deal) <;> rfl
  · unfold sealing waitSealed
    dsimp only
    cases h.secstWaitSeal deal.SectorID with
    | error m2 => rfl
    | ok status =>
      dsimp only
      cases status.State with
      | Pending => rfl
      | Sealing => rfl
      | Failed => rfl
      | Other code => rfl
      | Sealed =>
        dsimp only
        cases getInclusionProof (serializationUnixfs0 ++ toString deal.Ref) status with
        | error e => rfl
        | ok ip =>
          dsimp only
          cases h.dumpObjectIP { Sector := deal.SectorID, Proof := ip.ProofElements } with
          | error m2 => rfl
          | ok proofB =>
            dsimp only
            rw [proofsLoop_full_congr { h with sendSignedResponse := s } h rfl
              deal.Proposal.Payment.PayChActor proofB deal.Proposal.Payment.Vouchers 0]
            cases (proofsLoop h deal.Proposal.Payment.PayChActor proofB
                deal.Proposal.Payment.Vouchers 0).1 with
            | error e => rfl
            | ok u =>
              dsimp only
              cases s (sealingResponse deal ip status.CommD) <;>
                cases h.sendSignedResponse (sealingResponse deal ip status.CommD) <;> rfl
  · unfold complete
    dsimp only
    cases h.commtWaitCommit deal.Proposal.MinerAddress deal.SectorID with
    | error m2 =>
      dsimp only
      cases s (completeResponse deal zeroCid) <;>
        cases h.sendSignedResponse (completeResponse deal zeroCid) <;> rfl
    | ok c =>
      dsimp only
      cases s (completeResponse deal c) <;>
        cases h.sendSignedResponse (completeResponse deal c) <;> rfl

/-- C2 witness: the amended statement at the concrete fixtures. -/
theorem claim_C2_witness :
    (accept hSendFail dealGood).1 = .error (.sysErr "sendfail") :=
  (claim_C2_amended hSendFail dealGood (fun _ => .ok ()) "sendfail" rfl rfl (by decide) rfl).1

/-- C10 counterexample: a deal of duration `2 ^ 64 - 1` with one voucher
of time-lock 0 has its `startH` wrap all the way around to 1, so even
though the time-lock is strictly below the increment and
`currentHeight + skewLimit` does not wrap, `consumeVouchers` does NOT
reject the deal as starting too far in the future — refuting the
universally quantified claim. -/
theorem claim_C10_counterexample :
    (dealC10.Proposal.Payment.Vouchers.headD vGood).TimeLock <
        dealC10.Proposal.Duration / dealC10.Proposal.Payment.Vouchers.length
    ∧ 10 + hC10.skewLimit < UINT64
    ∧ isTooFarE (consumeVouchers hC10 dealC10).1 = false
    ∧ (consumeVouchers hC10 dealC10).1 = .error (.validatingVoucher 0 (.sysErr "cv")) := by
  decide

/-- C10 (amended): with `increment = duration / voucherCount`, when the
first voucher's time-lock is strictly smaller than the increment, the
wrapping `uint64` subtraction makes `startH` equal to
`2 ^ 64 - (increment - timeLock)`; provided `currentHeight + skewLimit`
does not itself wrap AND is strictly below that wrapped value (which
fails only when `increment - timeLock` is within `currentHeight +
skewLimit` of `2 ^ 64`), `consumeVouchers` rejects the deal as starting
too far in the future. -/
theorem claim_C10_amended (h : Handler) (deal : MinerDeal) (cur : Nat)
    (v0 : SignedVoucher) (vs : List SignedVoucher)
    (hch : h.full.ChainHead = .ok cur)
    (hv : deal.Proposal.Payment.Vouchers = v0 :: vs)
    (htl : v0.TimeLock < deal.Proposal.Duration / (vs.length + 1))
    (hincU : deal.Proposal.Duration / (vs.length + 1) < UINT64)
    (hcsU : cur + h.skewLimit < UINT64)
    (hgap : cur + h.skewLimit <
              UINT64 - (deal.Proposal.Duration / (vs.length + 1) - v0.TimeLock)) :
    u64sub v0.TimeLock (deal.Proposal.Duration / (vs.length + 1)) =
      UINT64 - (deal.Proposal.Duration / (vs.length + 1) - v0.TimeLock)
    ∧ (consumeVouchers h deal).1 =
        .error (.dealStartsTooFar
          (u64sub v0.TimeLock (deal.Proposal.Duration / (vs.length + 1)))) := by
  have hwrap : u64sub v0.TimeLock (deal.Proposal.Duration / (vs.length + 1)) =
      UINT64 - (deal.Proposal.Duration / (vs.length + 1) - v0.TimeLock) := by
    unfold u64sub
    rw [Nat.mod_eq_of_lt (lt_trans htl hincU), Nat.mod_eq_of_lt hincU,
        Nat.mod_eq_of_lt (by omega)]
    omega
  have hadd : u64add cur h.skewLimit = cur + h.skewLimit := by
    unfold u64add
    exact Nat.mod_eq_of_lt hcsU
  refine ⟨hwrap, ?_⟩
  unfold consumeVouchers
  rw [hch, hv]
  dsimp only
  simp only [List.length_cons]
  rw [if_pos (by rw [hwrap, hadd]; omega)]

/-- C10 witness: duration 1000, one voucher with time-lock 500, chain
height 100 and skew 10: the deal is rejected as starting too far in the
future with the wrapped start height. -/
theorem claim_C10_witness :
    (consumeVouchers hC10b dealC10b).1 = .error (.dealStartsTooFar (u64sub 500 1000)) :=
  (claim_C10_amended hC10b dealC10b 100 v500 [] rfl rfl (by decide) (by decide) (by decide)
    (by decide)).2

end DealsModel
